import Mathlib

/-!
Verification of the web-ui task-orchestration layer.

The definitions below are a shallow embedding of the FastAPI service in
`webui.py` and of the session registry in `src/webui/webui_manager.py`:

* Python dicts of strings are insertion-ordered association lists
  (`StrMap`), with `insertKey` / `eraseKey` / `lookupKey` matching dict
  assignment, `del` and `.get`;
* `json.dump` / `json.load` of the session-mapping dict are modelled at
  the level of key/value pair lists (`dumpMapping` / `loadMapping`):
  dumping emits the pairs in insertion order, loading rebuilds a dict by
  successive insertion;
* the filesystem is a list of existing path strings; the task-history
  directory listing is a list of (name, mtime) pairs; a filesystem that
  changes while a handler sleeps is a function from observation index to
  the list of paths existing at that instant;
* Python truthiness of an optional string (`if not s:`) is `truthyStr`:
  false exactly on `None` and the empty string;
* the process-wide mutable attributes of `webui_manager` consulted by the
  HTTP handlers (`bu_agent`, `bu_current_task`, `bu_agent_task_id`,
  `session_to_task_mapping` and its backing JSON file) form the
  `Manager` record; attributes that may be unset or `None` are `Option`s.
-/

namespace WebUi

/-! ## Python string dict as insertion-ordered association list -/

abbrev StrMap := List (String × String)

/-- `d.get(k)`: value of the first (under the no-duplicate-keys dict
invariant, only) pair with key `k`. -/
def lookupKey : StrMap → String → Option String
  | [], _ => none
  | (k2, v) :: rest, k => if k2 = k then some v else lookupKey rest k

/-- `list(d.keys())` in insertion order. -/
def mapKeys (m : StrMap) : List String := m.map Prod.fst

/-- `d[k] = v`: overwrite in place when the key exists, append otherwise. -/
def insertKey : StrMap → String → String → StrMap
  | [], k, v => [(k, v)]
  | (k2, v2) :: rest, k, v =>
      if k2 = k then (k2, v) :: rest else (k2, v2) :: insertKey rest k v

/-- `del d[k]` (the key occurs at most once in a dict). -/
def eraseKey : StrMap → String → StrMap
  | [], _ => []
  | (k2, v2) :: rest, k => if k2 = k then rest else (k2, v2) :: eraseKey rest k

/-- `json.dump(d, f)` for a string-to-string dict: the serialized JSON
object carries exactly the dict's pairs, in insertion order. -/
def dumpMapping (m : StrMap) : List (String × String) := m

/-- `json.load(f)` of a JSON object: build a dict by inserting each
serialized pair in order. -/
def loadMapping (pairs : List (String × String)) : StrMap :=
  pairs.foldl (fun acc kv => insertKey acc kv.1 kv.2) []

/-! ## Python truthiness of optional strings -/

/-- `if s:` for `s : Optional[str]` — false on `None` and on `""`. -/
def truthyStr : Option String → Bool
  | none => false
  | some s => s != ""

/-! ## Agent-side state read by the handlers (external framework objects) -/

/-- The slice of the external `AgentHistoryList` the handlers read:
`history.is_done()`. -/
structure AgentHistoryObj where
  is_done : Bool
deriving Repr, DecidableEq

/-- The external agent's `state` attribute: the two booleans this code
reads/writes, the step counter, and the optional history object
(`getattr(state, "history", None)`). -/
structure AgentState where
  stopped : Bool
  paused : Bool
  n_steps : Nat
  history : Option AgentHistoryObj
deriving Repr, DecidableEq

/-- The external agent object held in `webui_manager.bu_agent`. -/
structure AgentObj where
  state : AgentState
deriving Repr, DecidableEq

/-- The `asyncio.Task` handle held in `webui_manager.bu_current_task`;
the handlers only call `.done()` and `.cancel()` on it. -/
structure TaskHandle where
  done : Bool
deriving Repr, DecidableEq

/-- Process-wide mutable state of `webui_manager` as the HTTP handlers
see it.  `none` stands both for an attribute that was never set
(`hasattr` false / `getattr` default) and for one set to `None`, which
the code treats identically.  `mapping_file` is the content of the
persisted `session_mapping.json` (`none` = file absent). -/
structure Manager where
  session_to_task_mapping : StrMap
  mapping_file : Option (List (String × String))
  bu_agent : Option AgentObj
  bu_current_task : Option TaskHandle
  bu_agent_task_id : Option String
deriving Repr, DecidableEq

/-- `WebuiManager.get_task_id_for_session`. -/
def get_task_id_for_session (m : Manager) (session_id : String) : Option String :=
  lookupKey m.session_to_task_mapping session_id

/-- `WebuiManager._save_session_mapping`: serialize the in-memory map to
the mapping file. -/
def save_session_mapping (m : Manager) : Manager :=
  { m with mapping_file := some (dumpMapping m.session_to_task_mapping) }

/-- `WebuiManager.remove_session_mapping`: delete the entry and persist,
but only when the key is present; the boolean records whether a save was
performed. -/
def remove_session_mapping (m : Manager) (session_id : String) : Manager × Bool :=
  if (lookupKey m.session_to_task_mapping session_id).isSome then
    let m2 := { m with
      session_to_task_mapping := eraseKey m.session_to_task_mapping session_id }
    (save_session_mapping m2, true)
  else
    (m, false)

/-! ## `/execute-task` handler (`execute_task` in `webui.py`) -/

/-- Response JSON of `/execute-task`; absent keys are `none`.  The
`current_session` field is doubly optional: present only in the conflict
envelope, where its value is `getattr(webui_manager, "bu_agent_task_id",
None)` and may itself be `None`. -/
structure ExecResp where
  success : Bool
  error : Option String
  message : Option String
  session_id : Option String
  current_session : Option (Option String)
deriving Repr, DecidableEq

/-- The conflict test of `execute_task`: an agent object is present and
its state is neither stopped nor paused and a background task handle is
present (`getattr(webui_manager, "bu_current_task", None)` truthy). -/
def task_running (m : Manager) : Bool :=
  match m.bu_agent with
  | none => false
  | some a => !a.state.stopped && !a.state.paused && m.bu_current_task.isSome

/-- `execute_task`: `task` and `session_id_in` are the request-body
fields (`none` = key absent), `genId` the id that would be generated from
the clock and RNG.  Returns the response and whether
`background_tasks.add_task(process_agent_task, ...)` was called. -/
def execute_task (m : Manager) (task : Option String)
    (session_id_in : Option String) (genId : String) : ExecResp × Bool :=
  if !truthyStr task then
    ({ success := false, error := some "No task provided",
       message := none, session_id := none, current_session := none }, false)
  else
    let session_id := match session_id_in with
      | some s => if s != "" then s else genId
      | none => genId
    if task_running m then
      ({ success := false,
         error := some "Another task is currently running. Please wait for it to complete or stop it first.",
         message := none, session_id := none,
         current_session := some m.bu_agent_task_id }, false)
    else
      ({ success := true, error := none,
         message := some ("Task has been queued with session ID " ++ session_id),
         session_id := some session_id, current_session := none }, true)

/-! ## `/task-cancel/{session_id}` handler (`cancel_task` in `webui.py`) -/

/-- Response JSON of `/task-cancel`. -/
structure CancelResp where
  success : Bool
  error : Option String
  message : Option String
deriving Repr, DecidableEq

/-- `agent.state.stopped = True` on the manager's current agent. -/
def set_agent_stopped (m : Manager) : Manager :=
  match m.bu_agent with
  | none => m
  | some a =>
      { m with bu_agent := some { a with state := { a.state with stopped := true } } }

/-- `stopped` flag of the manager's agent (`false` when no agent). -/
def agent_stopped (m : Manager) : Bool :=
  match m.bu_agent with
  | none => false
  | some a => a.state.stopped

/-- `if current_task and not current_task.done(): current_task.cancel()`
— whether the background handle gets cancelled. -/
def handle_cancel_flag : Option TaskHandle → Bool
  | some h => !h.done
  | none => false

/-- `cancel_task`: resolves the task id (registry first, then the
`bu_agent_task_id` fallback), errors when no id or no agent, otherwise
stops the agent, cancels an unfinished background handle, and removes the
session mapping.  Returns (response, new manager state, whether
`current_task.cancel()` was invoked). -/
def cancel_task (m : Manager) (session_id : String) :
    CancelResp × Manager × Bool :=
  let t0 := get_task_id_for_session m session_id
  let current_task_id := if truthyStr t0 then t0 else m.bu_agent_task_id
  if !truthyStr current_task_id || !m.bu_agent.isSome then
    ({ success := false, error := some "No active task found", message := none },
     m, false)
  else
    let m1 := set_agent_stopped m
    let cancelled := handle_cancel_flag m1.bu_current_task
    let m2 := (remove_session_mapping m1 session_id).1
    ({ success := true, error := none,
       message := some ("Task with session ID " ++ session_id ++ " has been cancelled") },
     m2, cancelled)

/-! ## `/task-status/{session_id}` handler (`task_status` in `webui.py`) -/

/-- The sort key relation used for
`task_dirs.sort(key=mtime, reverse=True)`: `a` precedes `b` when `a`'s
mtime is at least `b`'s (descending, stable on ties as Python's sort is). -/
def mtimeGe (a b : String × Nat) : Bool := b.2 ≤ a.2

/-- The directory listing of `./tmp/agent_history`, sorted by
modification time, most recent first. -/
def sortDirsByMtime (dirs : List (String × Nat)) : List (String × Nat) :=
  dirs.mergeSort mtimeGe

/-- Task-id resolution shared by the status handler: registry mapping
first, then the current agent task id, then the most recently modified
directory under `./tmp/agent_history` (`dirs` is its listing as
(name, mtime) pairs, empty when the base directory is absent). -/
def resolve_task_id (m : Manager) (dirs : List (String × Nat))
    (session_id : String) : Option String :=
  let t0 := get_task_id_for_session m session_id
  if truthyStr t0 then t0
  else
    let t1 := m.bu_agent_task_id
    if truthyStr t1 then t1
    else
      match sortDirsByMtime dirs with
      | [] => none
      | d :: _ => some d.1

/-- `./tmp/agent_history/<tid>/<tid>.json`. -/
def historyPath (tid : String) : String :=
  "./tmp/agent_history/" ++ tid ++ "/" ++ tid ++ ".json"

/-- `./tmp/agent_history/<tid>/<tid>.gif`. -/
def gifPath (tid : String) : String :=
  "./tmp/agent_history/" ++ tid ++ "/" ++ tid ++ ".gif"

/-- The final-status computation of `task_status` (the
`status = "running" / if is_stopped ... ` cascade). -/
def statusOf (is_stopped is_paused task_is_done has_history has_gif : Bool) :
    String :=
  if is_stopped then "stopped"
  else if is_paused then "paused"
  else if task_is_done then
    if has_history && has_gif then "completed"
    else if has_history || has_gif then "finishing"
    else "completed"
  else "running"

/-- The bounded file-wait loop of `task_status`
(`while wait_count < max_wait_attempts and not (exists and exists): ...`).
`obs i` is whether both output files exist at the `i`-th check; the
result is the number of 0.5-second sleeps performed. -/
def wait_loop (obs : Nat → Bool) (max_attempts : Nat) (count : Nat) : Nat :=
  if h : count < max_attempts ∧ obs count = false then
    wait_loop obs max_attempts (count + 1)
  else count
termination_by max_attempts - count
decreasing_by exact Nat.sub_lt_sub_left h.1 (Nat.lt_succ_self count)

/-- The number of wait-loop sleeps a status request performs: none when
the minimal early return fires (it comes before the loop), none when the
task is not done or the request is detailed, otherwise the bounded loop
with `max_wait_attempts = 10`. -/
def status_wait_iters (task_is_done detailed minimal : Bool)
    (obs : Nat → Bool) : Nat :=
  if minimal then 0
  else if task_is_done && !detailed then wait_loop obs 10 0
  else 0

/-- Outcome of the status handler, keeping what the claims are about:
the early `not_found` and `Agent not initialized` error envelopes (both
with `success: false`), or a normal (`success: true`) response with its
`status` string, the task id it used, and the number of wait-loop sleeps
performed before the response was assembled. -/
inductive StatusOutcome where
  | not_found
  | agent_error
  | ok (status : String) (task_id : String) (wait_iters : Nat)
deriving Repr, DecidableEq

/-- `task_status`: `fsAt i` is the set of paths existing at the `i`-th
filesystem observation (index 0 for the `has_history` / `has_gif`
snapshot taken before any sleep, index `i` for the wait-loop check made
after `i` sleeps). -/
def task_status (m : Manager) (dirs : List (String × Nat))
    (fsAt : Nat → List String) (session_id : String)
    (detailed minimal : Bool) : StatusOutcome :=
  let ct := resolve_task_id m dirs session_id
  if !truthyStr ct then .not_found
  else
    match ct with
    | none => .not_found
    | some tid =>
      match m.bu_agent with
      | none => .agent_error
      | some agent =>
        let state := agent.state
        let task_is_done := match state.history with
          | none => false
          | some h => h.is_done
        let has_history := (fsAt 0).contains (historyPath tid)
        let has_gif := (fsAt 0).contains (gifPath tid)
        let status := statusOf state.stopped state.paused task_is_done
          has_history has_gif
        let wait_iters := status_wait_iters task_is_done detailed minimal
          (fun i => (fsAt i).contains (historyPath tid)
            && (fsAt i).contains (gifPath tid))
        .ok status tid wait_iters

/-- The `success` field of the status handler's JSON: `False` in the
`not_found` and `Agent not initialized` envelopes, `True` in the normal
response. -/
def statusOutcomeSuccess : StatusOutcome → Bool
  | .not_found => false
  | .agent_error => false
  | .ok _ _ _ => true

/-! ## `/task-result/{session_id}` handler (`task_result` in `webui.py`) -/

/-- One entry of the persisted `steps` array. -/
structure StepData where
  action : Option String
  result : Option String
  status : Option String
deriving Repr, DecidableEq

/-- The parsed content of `<sid>.json` as `task_result` reads it;
each field is `none` when the key is missing (`history_data.get(...)`). -/
structure HistoryData where
  final_result : Option String
  succeeded : Option Bool
  duration_seconds : Option Nat
  steps : Option (List StepData)
  errors : Option (List String)
deriving Repr, DecidableEq

/-- Response of `/task-result`, keeping the fields the claims are about
plus the other scalars of the `result` sub-object. -/
structure TaskResultResp where
  success : Bool
  error : Option String
  text : Option String
  result_success : Option Bool
  duration_seconds : Option Nat
  steps_completed : Option Nat
  gif_included : Bool
deriving Repr, DecidableEq

/-- `task_result`: `history_file` is `none` when
`./tmp/agent_history/<sid>/<sid>.json` does not exist,
`some (.error ())` when it exists but `json.load` raises
`JSONDecodeError`, and `some (.ok d)` when it parses to `d`.
`gif_exists` is whether `<sid>.gif` exists. -/
def task_result (history_file : Option (Except Unit HistoryData))
    (gif_exists : Bool) (session_id : String) : TaskResultResp :=
  match history_file with
  | none =>
      { success := false,
        error := some ("No results found for session ID: " ++ session_id),
        text := none, result_success := none, duration_seconds := none,
        steps_completed := none, gif_included := false }
  | some (.error _) =>
      { success := false,
        error := some ("Failed to parse history file for session " ++ session_id),
        text := none, result_success := none, duration_seconds := none,
        steps_completed := none, gif_included := false }
  | some (.ok d) =>
      { success := true, error := none,
        text := some (d.final_result.getD ""),
        result_success := some (d.succeeded.getD false),
        duration_seconds := some (d.duration_seconds.getD 0),
        steps_completed := some (d.steps.getD []).length,
        gif_included := gif_exists }

/-! ## HTTP boundary: routes and the API-key dependency -/

/-- The routes the FastAPI app registers. -/
inductive Route where
  | executeTask
  | taskStatus
  | taskCancel
  | taskResult
  | healthcheck
  | health
deriving Repr, DecidableEq

/-- Which routes declare the `Depends(verify_api_key)` dependency:
all of them except `/healthcheck` and `/health`. -/
def requiresAuth : Route → Bool
  | .healthcheck => false
  | .health => false
  | _ => true

/-- `verify_api_key`: missing `X-API-Key` header raises
`HTTPException(401)`, a wrong key raises `HTTPException(403)`. -/
def verify_api_key (apiKey : String) (header : Option String) :
    Except Nat Unit :=
  match header with
  | none => .error 401
  | some k => if k != apiKey then .error 403 else .ok ()

/-- An HTTP-level outcome: an error status raised by a dependency, or a
`200 OK` JSON body (FastAPI returns plain dicts as 200). -/
inductive HttpOut (β : Type) where
  | httpError (code : Nat)
  | okBody (body : β)
deriving Repr, DecidableEq

/-- Request dispatch: run the route's auth dependency when it declares
one, then run the handler; a handler's return value is always delivered
as a `200 OK` body. -/
def dispatch {β : Type} (apiKey : String) (r : Route)
    (header : Option String) (handler : Route → β) : HttpOut β :=
  if requiresAuth r then
    match verify_api_key apiKey header with
    | .error c => .httpError c
    | .ok _ => .okBody (handler r)
  else .okBody (handler r)

/-- Look a key up in the persisted mapping file (`none` when the file is
absent). -/
def fileLookup : Option (List (String × String)) → String → Option String
  | none, _ => none
  | some l, k => lookupKey l k

/-! ## Concrete instances used to exercise the theorems -/

/-- A manager before any submit: no attribute set, empty registry. -/
def mgrEmpty : Manager :=
  { session_to_task_mapping := [], mapping_file := none, bu_agent := none,
    bu_current_task := none, bu_agent_task_id := none }

/-- A manager whose single agent slot holds a running task. -/
def mgrBusy : Manager :=
  { session_to_task_mapping := [], mapping_file := none,
    bu_agent := some { state :=
      { stopped := false, paused := false, n_steps := 1, history := none } },
    bu_current_task := some { done := false },
    bu_agent_task_id := some "task-7" }

/-- A manager with an active agent task but an empty registry: the
session being cancelled has no mapping, yet the `bu_agent_task_id`
fallback resolves. -/
def mgrUnmapped : Manager :=
  { session_to_task_mapping := [], mapping_file := some [],
    bu_agent := some { state :=
      { stopped := false, paused := false, n_steps := 2, history := none } },
    bu_current_task := some { done := false },
    bu_agent_task_id := some "task-1" }

/-- A manager with a mapped session and an initialized agent. -/
def mgrMapped : Manager :=
  { session_to_task_mapping := [("sess-a", "task-9")],
    mapping_file := some [("sess-a", "task-9")],
    bu_agent := some { state :=
      { stopped := false, paused := false, n_steps := 3, history := none } },
    bu_current_task := some { done := false },
    bu_agent_task_id := some "task-9" }

/-- A manager with two mapped sessions, registry file in sync. -/
def mgrTwo : Manager :=
  { session_to_task_mapping := [("sess-a", "task-1"), ("sess-b", "task-2")],
    mapping_file := some [("sess-a", "task-1"), ("sess-b", "task-2")],
    bu_agent := none, bu_current_task := none, bu_agent_task_id := none }

/-- A filesystem in which both output files of task `task-w` exist at
every observation instant. -/
def fsAllFiles : Nat → List String :=
  fun _ => ["./tmp/agent_history/task-w/task-w.json",
            "./tmp/agent_history/task-w/task-w.gif"]

/-- A parsed history file with two persisted steps. -/
def histEx : HistoryData :=
  { final_result := some "done", succeeded := some true,
    duration_seconds := some 3,
    steps := some [{ action := some "click", result := none, status := none },
                   { action := some "type", result := none, status := none }],
    errors := none }

/-! ## Helper lemmas: association-list dictionaries -/

theorem lookupKey_eq_none_of_not_mem (m : StrMap) (k : String)
    (h : k ∉ mapKeys m) : lookupKey m k = none := by
  induction m with
  | nil => rfl
  | cons hd tl ih =>
      simp only [mapKeys, List.map_cons, List.mem_cons, not_or] at h
      simp only [lookupKey]
      rw [if_neg (fun e => h.1 e.symm)]
      exact ih h.2

theorem lookupKey_eraseKey_ne (m : StrMap) (s k : String) (h : k ≠ s) :
    lookupKey (eraseKey m s) k = lookupKey m k := by
  induction m with
  | nil => rfl
  | cons hd tl ih =>
      by_cases hs : hd.1 = s
      · simp only [eraseKey, if_pos hs, lookupKey]
        rw [if_neg (by rw [hs]; exact fun e => h e.symm)]
      · simp only [eraseKey, if_neg hs, lookupKey]
        by_cases hk : hd.1 = k
        · simp [hk]
        · simp [hk, ih]

theorem lookupKey_eraseKey_self (m : StrMap) (s : String)
    (h : (mapKeys m).Nodup) : lookupKey (eraseKey m s) s = none := by
  induction m with
  | nil => rfl
  | cons hd tl ih =>
      simp only [mapKeys, List.map_cons, List.nodup_cons] at h
      by_cases hs : hd.1 = s
      · simp only [eraseKey, if_pos hs]
        apply lookupKey_eq_none_of_not_mem
        rw [← hs]
        exact h.1
      · simp only [eraseKey, if_neg hs, lookupKey, if_neg hs]
        exact ih h.2

theorem insertKey_of_not_mem (m : StrMap) (k v : String)
    (h : k ∉ mapKeys m) : insertKey m k v = m ++ [(k, v)] := by
  induction m with
  | nil => rfl
  | cons hd tl ih =>
      simp only [mapKeys, List.map_cons, List.mem_cons, not_or] at h
      simp only [insertKey]
      rw [if_neg (fun e => h.1 e.symm), ih h.2]
      rfl

theorem mapKeys_append (a b : StrMap) :
    mapKeys (a ++ b) = mapKeys a ++ mapKeys b := by
  simp [mapKeys]

theorem loadMapping_foldl (m : StrMap) :
    ∀ acc : StrMap, (mapKeys m).Nodup →
      (∀ k ∈ mapKeys m, k ∉ mapKeys acc) →
      m.foldl (fun a kv => insertKey a kv.1 kv.2) acc = acc ++ m := by
  induction m with
  | nil => intro acc _ _; simp
  | cons hd tl ih =>
      intro acc hnd hdisj
      have hnd2 : hd.1 ∉ mapKeys tl ∧ (mapKeys tl).Nodup := by
        simpa only [mapKeys, List.map_cons, List.nodup_cons] using hnd
      simp only [List.foldl_cons]
      rw [insertKey_of_not_mem acc hd.1 hd.2
        (hdisj hd.1 (List.mem_cons_self _ _))]
      have hdisj2 : ∀ k ∈ mapKeys tl, k ∉ mapKeys (acc ++ [(hd.1, hd.2)]) := by
        intro k hk hmem
        rw [mapKeys_append] at hmem
        rcases List.mem_append.mp hmem with h1 | h2
        · exact hdisj k (List.mem_cons_of_mem _ hk) h1
        · have he : k = hd.1 := by simpa [mapKeys] using h2
          exact hnd2.1 (he ▸ hk)
      rw [ih (acc ++ [(hd.1, hd.2)]) hnd2.2 hdisj2, List.append_assoc]
      rfl

/-! ## Helper lemmas: the bounded wait loop -/

theorem wait_loop_le_aux (obs : Nat → Bool) (ma : Nat) :
    ∀ fuel c, ma - c ≤ fuel → c ≤ ma → wait_loop obs ma c ≤ ma := by
  intro fuel
  induction fuel with
  | zero =>
      intro c hf hc
      rw [wait_loop]
      split
      · omega
      · exact hc
  | succ n ih =>
      intro c hf hc
      rw [wait_loop]
      split
      · next h => exact ih (c + 1) (by omega) (by omega)
      · exact hc

theorem wait_loop_early_aux (obs : Nat → Bool) (ma j : Nat)
    (hj : obs j = true) :
    ∀ fuel c, j - c ≤ fuel → c ≤ j → wait_loop obs ma c ≤ j := by
  intro fuel
  induction fuel with
  | zero =>
      intro c hf hc
      have hcj : c = j := by omega
      rw [wait_loop]
      split
      · next h => rw [hcj] at h; rw [hj] at h; exact absurd h.2 (by simp)
      · exact hc
  | succ n ih =>
      intro c hf hc
      by_cases hcj : c = j
      · rw [wait_loop]
        split
        · next h => rw [hcj] at h; rw [hj] at h; exact absurd h.2 (by simp)
        · exact hc
      · rw [wait_loop]
        split
        · exact ih (c + 1) (by omega) (by omega)
        · exact hc

theorem wait_loop_le (obs : Nat → Bool) : wait_loop obs 10 0 ≤ 10 :=
  wait_loop_le_aux obs 10 10 0 (by omega) (by omega)

theorem wait_loop_early (obs : Nat → Bool) (j : Nat) (hj : obs j = true) :
    wait_loop obs 10 0 ≤ j :=
  wait_loop_early_aux obs 10 j hj j 0 (by omega) (by omega)

/-! ## Helper lemmas: the mtime sort -/

theorem sortDirsByMtime_head_max (dirs : List (String × Nat)) (d : String × Nat)
    (rest : List (String × Nat)) (h : sortDirsByMtime dirs = d :: rest) :
    d ∈ dirs ∧ ∀ e ∈ dirs, e.2 ≤ d.2 := by
  have hperm : (sortDirsByMtime dirs).Perm dirs := List.mergeSort_perm dirs mtimeGe
  have hmem : d ∈ dirs := hperm.mem_iff.mp (by rw [h]; exact List.mem_cons_self d rest)
  refine ⟨hmem, ?_⟩
  have hsorted : List.Pairwise (fun a b => mtimeGe a b = true) (sortDirsByMtime dirs) := by
    apply List.sorted_mergeSort
    · intro a b c hab hbc
      simp only [mtimeGe, decide_eq_true_eq] at hab hbc ⊢
      omega
    · intro a b
      simp only [mtimeGe, Bool.or_eq_true, decide_eq_true_eq]
      omega
  rw [h] at hsorted
  intro e he
  have he2 : e ∈ sortDirsByMtime dirs := hperm.mem_iff.mpr he
  rw [h] at he2
  rcases List.mem_cons.mp he2 with rfl | hrest
  · exact le_refl _
  · have := (List.pairwise_cons.mp hsorted).1 e hrest
    simpa [mtimeGe] using this

/-! ## Helper lemmas: manager updates -/

theorem remove_session_mapping_bu_agent (m : Manager) (s : String) :
    (remove_session_mapping m s).1.bu_agent = m.bu_agent := by
  simp only [remove_session_mapping, save_session_mapping]
  split <;> rfl

theorem remove_session_mapping_current_task (m : Manager) (s : String) :
    (remove_session_mapping m s).1.bu_current_task = m.bu_current_task := by
  simp only [remove_session_mapping, save_session_mapping]
  split <;> rfl

theorem set_agent_stopped_current_task (m : Manager) :
    (set_agent_stopped m).bu_current_task = m.bu_current_task := by
  cases h : m.bu_agent <;> simp [set_agent_stopped, h]

theorem agent_stopped_set (m : Manager) (h : m.bu_agent.isSome = true) :
    agent_stopped (set_agent_stopped m) = true := by
  cases ha : m.bu_agent with
  | none => rw [ha] at h; simp at h
  | some a => simp [set_agent_stopped, agent_stopped, ha]

/-! ## Claim theorems -/

/-- C1: for every submit request carrying a non-empty task, when the
single process-wide agent slot already holds a running task
(`task_running`), `execute_task` answers the conflict envelope —
`success: false` with `current_session` set to the stored current task
identifier — and schedules no background job; otherwise it schedules
asynchronous execution and immediately answers `success: true` with the
provided session id (or the generated one when the request carried none
or an empty one). -/
theorem execute_task_single_slot (m : Manager) (task : String)
    (sid : Option String) (genId : String) (htask : task ≠ "") :
    (task_running m = true →
      (execute_task m (some task) sid genId).1.success = false ∧
      (execute_task m (some task) sid genId).1.current_session
        = some m.bu_agent_task_id ∧
      (execute_task m (some task) sid genId).2 = false) ∧
    (task_running m = false →
      (execute_task m (some task) sid genId).1.success = true ∧
      (execute_task m (some task) sid genId).2 = true ∧
      (execute_task m (some task) sid genId).1.session_id =
        some (match sid with
              | some s => if s != "" then s else genId
              | none => genId)) := by
  have ht : truthyStr (some task) = true := by
    simp [truthyStr, htask]
  constructor
  · intro hrun
    simp [execute_task, ht, hrun]
  · intro hrun
    simp [execute_task, ht, hrun]

/-- C1 witness: a busy manager rejects with the conflict envelope and no
scheduling; an idle manager schedules and echoes the provided session
id. -/
theorem execute_task_single_slot_witness :
    ((execute_task mgrBusy (some "go to example.com") none "gen-1").1.success = false ∧
     (execute_task mgrBusy (some "go to example.com") none "gen-1").1.current_session
       = some (some "task-7") ∧
     (execute_task mgrBusy (some "go to example.com") none "gen-1").2 = false) ∧
    ((execute_task mgrEmpty (some "go to example.com") (some "sess-1") "gen-1").1.success = true ∧
     (execute_task mgrEmpty (some "go to example.com") (some "sess-1") "gen-1").2 = true ∧
     (execute_task mgrEmpty (some "go to example.com") (some "sess-1") "gen-1").1.session_id
       = some "sess-1") := by
  constructor
  · have h := (execute_task_single_slot mgrBusy "go to example.com" none "gen-1"
      (by decide)).1 (by decide)
    exact ⟨h.1, by rw [h.2.1]; rfl, h.2.2⟩
  · have h := (execute_task_single_slot mgrEmpty "go to example.com" (some "sess-1") "gen-1"
      (by decide)).2 (by decide)
    exact ⟨h.1, h.2.1, by rw [h.2.2]; rfl⟩

/-- C9: in the status computation of the poll handler, when the history
reports done and the agent is neither stopped nor paused, the status is
`completed` both when both output files exist and when neither does,
while `finishing` is reported exactly when one of the two files exists. -/
theorem statusOf_done_file_cases :
    statusOf false false true true true = "completed" ∧
    statusOf false false true false false = "completed" ∧
    statusOf false false true true false = "finishing" ∧
    statusOf false false true false true = "finishing" :=
  ⟨rfl, rfl, rfl, rfl⟩

/-- C4: `task_result` answers `success: false` when the history JSON
file is absent, and on a file that exists and parses it answers a bundle
whose `steps_completed` is the length of the persisted `steps` array
(the empty array when the key is missing). -/
theorem task_result_contract (hf : Option (Except Unit HistoryData))
    (g : Bool) (sid : String) :
    (hf = none → (task_result hf g sid).success = false) ∧
    (∀ d, hf = some (Except.ok d) →
      (task_result hf g sid).success = true ∧
      (task_result hf g sid).steps_completed = some (d.steps.getD []).length) := by
  constructor
  · rintro rfl; rfl
  · rintro d rfl; exact ⟨rfl, rfl⟩

/-- C4 witness: a missing file yields `success: false`; a parsed file
with two steps yields `success: true` and `steps_completed = 2`. -/
theorem task_result_contract_witness :
    (task_result none true "s1").success = false ∧
    (task_result (some (Except.ok histEx)) true "s1").success = true ∧
    (task_result (some (Except.ok histEx)) true "s1").steps_completed = some 2 := by
  refine ⟨(task_result_contract none true "s1").1 rfl, ?_, ?_⟩
  · exact ((task_result_contract (some (Except.ok histEx)) true "s1").2 histEx rfl).1
  · have h := ((task_result_contract (some (Except.ok histEx)) true "s1").2 histEx rfl).2
    rw [h]; rfl

/-- C6: registry persistence round-trips — serializing the session map
and loading the serialized pairs back rebuilds exactly the same
key/value pairs (under the dict invariant that keys are unique). -/
theorem session_mapping_round_trip (m : StrMap)
    (h : (mapKeys m).Nodup) : loadMapping (dumpMapping m) = m := by
  have hfold := loadMapping_foldl m [] h (by intro k _; simp [mapKeys])
  simpa [loadMapping, dumpMapping] using hfold

/-- C6 witness: a two-entry map survives the save/load round trip. -/
theorem session_mapping_round_trip_witness :
    (mapKeys [("sess-a", "task-1"), ("sess-b", "task-2")]).Nodup ∧
    loadMapping (dumpMapping [("sess-a", "task-1"), ("sess-b", "task-2")])
      = [("sess-a", "task-1"), ("sess-b", "task-2")] :=
  ⟨by decide, session_mapping_round_trip _ (by decide)⟩

/-- C2 counterexample: with an empty registry but an active agent task
(`bu_agent_task_id` set, agent initialized), cancelling a session that
has no mapping succeeds (`success: true`) instead of returning the error
envelope the claim requires: the handler falls back to the current agent
task id before deciding whether any task exists. -/
theorem cancel_unmapped_claim_counterexample :
    lookupKey mgrUnmapped.session_to_task_mapping "sess-x" = none ∧
    (cancel_task mgrUnmapped "sess-x").1.success = true := by
  exact ⟨rfl, by decide⟩

/-- C2 (amended): `cancel_task` answers the error envelope
(`success: false`, manager untouched) exactly when no task id can be
resolved — neither the registry mapping for the session nor the
`bu_agent_task_id` fallback yields a non-empty id — or the agent is not
initialized; in every other state (a task id resolves through either
source and the agent is initialized) it answers `success: true`, sets
the agent's stop flag, and invokes `cancel()` on the background handle
exactly when one is present and not yet done. -/
theorem cancel_task_resolution (m : Manager) (s : String) :
    ((!truthyStr (if truthyStr (get_task_id_for_session m s)
        then get_task_id_for_session m s else m.bu_agent_task_id)
      || !m.bu_agent.isSome) = true →
      (cancel_task m s).1.success = false ∧ (cancel_task m s).2.1 = m) ∧
    ((!truthyStr (if truthyStr (get_task_id_for_session m s)
        then get_task_id_for_session m s else m.bu_agent_task_id)
      || !m.bu_agent.isSome) = false →
      (cancel_task m s).1.success = true ∧
      agent_stopped (cancel_task m s).2.1 = true ∧
      (cancel_task m s).2.2 = handle_cancel_flag m.bu_current_task) := by
  constructor
  · intro hcond
    simp only [cancel_task]
    rw [if_pos hcond]
    exact ⟨rfl, rfl⟩
  · intro hcond
    have hagent : m.bu_agent.isSome = true := by
      rcases Bool.or_eq_false_iff.mp hcond with ⟨_, h2⟩
      simpa using h2
    simp only [cancel_task]
    rw [if_neg (by rw [hcond]; exact Bool.false_ne_true)]
    refine ⟨rfl, ?_, ?_⟩
    · have h1 : agent_stopped ((remove_session_mapping (set_agent_stopped m) s).1)
          = agent_stopped (set_agent_stopped m) := by
        simp [agent_stopped, remove_session_mapping_bu_agent]
      exact h1.trans (agent_stopped_set m hagent)
    · show handle_cancel_flag (set_agent_stopped m).bu_current_task
        = handle_cancel_flag m.bu_current_task
      rw [set_agent_stopped_current_task]

/-- C2 (amended) witness: the all-empty manager yields the error
envelope; a session resolved only through the `bu_agent_task_id`
fallback and a registry-mapped session are both cancelled — stop flag
set, unfinished handle cancelled. -/
theorem cancel_task_resolution_witness :
    ((cancel_task mgrEmpty "sess-x").1.success = false ∧
     (cancel_task mgrEmpty "sess-x").2.1 = mgrEmpty) ∧
    ((cancel_task mgrUnmapped "sess-x").1.success = true ∧
     agent_stopped (cancel_task mgrUnmapped "sess-x").2.1 = true ∧
     (cancel_task mgrUnmapped "sess-x").2.2
       = handle_cancel_flag mgrUnmapped.bu_current_task) ∧
    ((cancel_task mgrMapped "sess-a").1.success = true ∧
     agent_stopped (cancel_task mgrMapped "sess-a").2.1 = true ∧
     (cancel_task mgrMapped "sess-a").2.2
       = handle_cancel_flag mgrMapped.bu_current_task) := by
  refine ⟨?_, ?_, ?_⟩
  · exact (cancel_task_resolution mgrEmpty "sess-x").1 (by decide)
  · exact (cancel_task_resolution mgrUnmapped "sess-x").2 (by decide)
  · exact (cancel_task_resolution mgrMapped "sess-a").2 (by decide)

/-- C10: `remove_session_mapping` affects only the entry for the given
session: every other session's value is unchanged in memory and in the
persisted file (with the file in sync with memory, as the manager keeps
it), the entry itself is gone afterwards, and when the session is not
present both the map and the file are left entirely unchanged and no
save is performed; a successful cancel performs exactly this removal
(after setting the stop flag) for its session. -/
theorem remove_session_mapping_frame (m : Manager) (s : String)
    (hsync : m.mapping_file = some (dumpMapping m.session_to_task_mapping))
    (hnd : (mapKeys m.session_to_task_mapping).Nodup) :
    (∀ k, k ≠ s →
      lookupKey (remove_session_mapping m s).1.session_to_task_mapping k
        = lookupKey m.session_to_task_mapping k) ∧
    (∀ k, k ≠ s →
      fileLookup (remove_session_mapping m s).1.mapping_file k
        = fileLookup m.mapping_file k) ∧
    ((lookupKey m.session_to_task_mapping s).isSome = true →
      lookupKey (remove_session_mapping m s).1.session_to_task_mapping s = none) ∧
    (lookupKey m.session_to_task_mapping s = none →
      (remove_session_mapping m s).1 = m ∧ (remove_session_mapping m s).2 = false) ∧
    (∀ m2 sid, (cancel_task m2 sid).1.success = true →
      (cancel_task m2 sid).2.1
        = (remove_session_mapping (set_agent_stopped m2) sid).1) := by
  refine ⟨?_, ?_, ?_, ?_, ?_⟩
  · intro k hk
    by_cases hp : (lookupKey m.session_to_task_mapping s).isSome = true
    · simp only [remove_session_mapping, if_pos hp, save_session_mapping]
      exact lookupKey_eraseKey_ne _ s k hk
    · simp only [remove_session_mapping, if_neg hp]
  · intro k hk
    by_cases hp : (lookupKey m.session_to_task_mapping s).isSome = true
    · rw [hsync]
      simp only [remove_session_mapping, if_pos hp, save_session_mapping,
        fileLookup, dumpMapping]
      exact lookupKey_eraseKey_ne _ s k hk
    · simp only [remove_session_mapping, if_neg hp]
  · intro hp
    simp only [remove_session_mapping, if_pos hp, save_session_mapping]
    exact lookupKey_eraseKey_self _ s hnd
  · intro h0
    have hp : ¬((lookupKey m.session_to_task_mapping s).isSome = true) := by
      rw [h0]; simp
    refine ⟨?_, ?_⟩ <;> simp only [remove_session_mapping, if_neg hp]
  · intro m2 sid hsucc
    by_cases hc : (!truthyStr (if truthyStr (get_task_id_for_session m2 sid)
        then get_task_id_for_session m2 sid else m2.bu_agent_task_id)
      || !m2.bu_agent.isSome) = true
    · exfalso
      simp only [cancel_task] at hsucc
      rw [if_pos hc] at hsucc
      exact Bool.false_ne_true hsucc
    · simp only [cancel_task]
      rw [if_neg hc]

/-- C10 witness: removing `sess-a` from a two-entry synced registry
leaves `sess-b` intact in memory and on disk, removes `sess-a`, a
missing session changes nothing, and a successful cancel produces the
state of the removal. -/
theorem remove_session_mapping_frame_witness :
    lookupKey (remove_session_mapping mgrTwo "sess-a").1.session_to_task_mapping "sess-b"
      = lookupKey mgrTwo.session_to_task_mapping "sess-b" ∧
    fileLookup (remove_session_mapping mgrTwo "sess-a").1.mapping_file "sess-b"
      = fileLookup mgrTwo.mapping_file "sess-b" ∧
    lookupKey (remove_session_mapping mgrTwo "sess-a").1.session_to_task_mapping "sess-a"
      = none ∧
    (remove_session_mapping mgrTwo "sess-z").1 = mgrTwo ∧
    (cancel_task mgrMapped "sess-a").2.1
      = (remove_session_mapping (set_agent_stopped mgrMapped) "sess-a").1 := by
  have h := remove_session_mapping_frame mgrTwo "sess-a" rfl (by decide)
  refine ⟨h.1 "sess-b" (by decide), h.2.1 "sess-b" (by decide),
    h.2.2.1 (by decide), ?_, ?_⟩
  · exact ((remove_session_mapping_frame mgrTwo "sess-z" rfl
      (by decide)).2.2.2.1 (by decide)).1
  · exact h.2.2.2.2 mgrMapped "sess-a" (by decide)

/-- C3: poll resolves the session id through the registry first — a
non-empty registry mapping is always the task id used; the guess that
scans `./tmp/agent_history` is reached only in the fallback (registry
and current-agent-id both unset), where it picks a directory of maximal
modification time among those listed; and when that fallback has no
candidate the response status is `not_found`. -/
theorem status_resolution_policy (m : Manager) (dirs : List (String × Nat))
    (s : String) :
    (∀ t, get_task_id_for_session m s = some t → t ≠ "" →
      resolve_task_id m dirs s = some t) ∧
    (truthyStr (get_task_id_for_session m s) = false →
      truthyStr m.bu_agent_task_id = false → dirs ≠ [] →
      ∃ d, d ∈ dirs ∧ resolve_task_id m dirs s = some d.1 ∧
        ∀ e ∈ dirs, e.2 ≤ d.2) ∧
    (truthyStr (get_task_id_for_session m s) = false →
      truthyStr m.bu_agent_task_id = false → dirs = [] →
      ∀ fsAt det mini,
        task_status m dirs fsAt s det mini = StatusOutcome.not_found) := by
  refine ⟨?_, ?_, ?_⟩
  · intro t hl ht
    have ht0 : truthyStr (get_task_id_for_session m s) = true := by
      rw [hl]; simp [truthyStr, ht]
    simp only [resolve_task_id]
    rw [if_pos ht0, hl]
  · intro h1 h2 hne
    cases hs : sortDirsByMtime dirs with
    | nil =>
        exfalso
        have hperm : (sortDirsByMtime dirs).Perm dirs :=
          List.mergeSort_perm dirs mtimeGe
        rw [hs] at hperm
        exact hne hperm.nil_eq.symm
    | cons d rest =>
        obtain ⟨hmem, hmax⟩ := sortDirsByMtime_head_max dirs d rest hs
        refine ⟨d, hmem, ?_, hmax⟩
        simp only [resolve_task_id]
        rw [if_neg (by rw [h1]; simp), if_neg (by rw [h2]; simp), hs]
  · intro h1 h2 hd fsAt det mini
    subst hd
    have hres : resolve_task_id m [] s = none := by
      simp only [resolve_task_id]
      rw [if_neg (by simp [h1]), if_neg (by simp [h2])]
      simp [sortDirsByMtime, List.mergeSort_nil]
    simp [task_status, hres, truthyStr]

/-- C3 witness: a mapped session resolves through the registry; with
both the registry and the agent id unset the guess picks the directory
with the larger mtime; with nothing at all the status is `not_found`. -/
theorem status_resolution_policy_witness :
    resolve_task_id mgrMapped [] "sess-a" = some "task-9" ∧
    (∃ d, d ∈ [("task-old", 5), ("task-new", 9)] ∧
      resolve_task_id mgrEmpty [("task-old", 5), ("task-new", 9)] "sess-q"
        = some d.1 ∧
      ∀ e ∈ [("task-old", 5), ("task-new", 9)], e.2 ≤ d.2) ∧
    task_status mgrEmpty [] (fun _ => []) "sess-q" false false
      = StatusOutcome.not_found := by
  refine ⟨?_, ?_, ?_⟩
  · exact (status_resolution_policy mgrMapped [] "sess-a").1 "task-9"
      (by decide) (by decide)
  · exact (status_resolution_policy mgrEmpty
      [("task-old", 5), ("task-new", 9)] "sess-q").2.1
      (by decide) (by decide) (by decide)
  · exact (status_resolution_policy mgrEmpty [] "sess-q").2.2
      (by decide) (by decide) rfl (fun _ => []) false false

/-- C5: polling before any submit has occurred — empty registry, no
agent attributes set, no task directories — answers status `not_found`
for every session id. -/
theorem poll_before_submit_not_found (m : Manager) (fsAt : Nat → List String)
    (s : String) (det mini : Bool)
    (h1 : m.session_to_task_mapping = [])
    (h2 : m.bu_agent_task_id = none)
    (h3 : m.bu_agent = none) :
    task_status m [] fsAt s det mini = StatusOutcome.not_found := by
  have hres : resolve_task_id m [] s = none := by
    simp [resolve_task_id, get_task_id_for_session, h1, h2, lookupKey,
      truthyStr, sortDirsByMtime, List.mergeSort_nil]
  have _hagent := h3
  simp [task_status, hres, truthyStr]

/-- C5 witness: the empty manager polled on a concrete session. -/
theorem poll_before_submit_not_found_witness :
    task_status mgrEmpty [] (fun _ => []) "sess-1" true false
      = StatusOutcome.not_found :=
  poll_before_submit_not_found mgrEmpty (fun _ => []) "sess-1" true false
    rfl rfl rfl

/-- C7: once the agent reports logical completion (`task_is_done`), a
non-detailed poll performs at most 10 wait iterations (0.5-second
sleeps each, about 5 seconds), and the wait stops no later than the
first observation at which both the history JSON and the GIF exist; the
loop is a total function of its observations, so it always terminates. -/
theorem status_wait_bounded (minimal : Bool) (fsAt : Nat → List String)
    (tid : String) :
    status_wait_iters true false minimal
      (fun i => (fsAt i).contains (historyPath tid)
        && (fsAt i).contains (gifPath tid)) ≤ 10 ∧
    ∀ j, ((fsAt j).contains (historyPath tid)
        && (fsAt j).contains (gifPath tid)) = true →
      status_wait_iters true false minimal
        (fun i => (fsAt i).contains (historyPath tid)
          && (fsAt i).contains (gifPath tid)) ≤ j := by
  cases minimal with
  | false =>
      constructor
      · simpa [status_wait_iters] using wait_loop_le
          (fun i => (fsAt i).contains (historyPath tid)
            && (fsAt i).contains (gifPath tid))
      · intro j hj
        simpa [status_wait_iters] using wait_loop_early
          (fun i => (fsAt i).contains (historyPath tid)
            && (fsAt i).contains (gifPath tid)) j hj
  | true =>
      refine ⟨by simp [status_wait_iters], ?_⟩
      intro j hj
      simp [status_wait_iters]

/-- C7 witness: with both files present from the very first observation
the wait performs zero iterations. -/
theorem status_wait_bounded_witness :
    ((fsAllFiles 0).contains (historyPath "task-w")
      && (fsAllFiles 0).contains (gifPath "task-w")) = true ∧
    status_wait_iters true false false
      (fun i => (fsAllFiles i).contains (historyPath "task-w")
        && (fsAllFiles i).contains (gifPath "task-w")) ≤ 0 := by
  refine ⟨by decide, ?_⟩
  exact (status_wait_bounded false fsAllFiles "task-w").2 0 (by decide)

/-- C8: every route except `/healthcheck` and `/health` requires the
`X-API-Key` header — a missing header is rejected with HTTP 401 and a
wrong key with HTTP 403; HTTP error statuses arise only from that auth
dependency (and are 401 or 403), every handler return value being
delivered as a `200 OK` body — and the handlers' failure envelopes all
carry `success: false` (validation and conflict in submit, the
not-found and agent-not-initialized poll envelopes, the missing-history
and parse-failure result envelopes). -/
theorem api_key_boundary {β : Type} (apiKey : String) (r : Route)
    (header : Option String) (handler : Route → β) :
    (r ≠ Route.healthcheck → r ≠ Route.health → header = none →
      dispatch apiKey r header handler = HttpOut.httpError 401) ∧
    (∀ k, r ≠ Route.healthcheck → r ≠ Route.health → header = some k →
      k ≠ apiKey → dispatch apiKey r header handler = HttpOut.httpError 403) ∧
    (∀ c, dispatch apiKey r header handler = HttpOut.httpError c →
      requiresAuth r = true ∧ (c = 401 ∨ c = 403)) ∧
    (header = some apiKey ∨ requiresAuth r = false →
      dispatch apiKey r header handler = HttpOut.okBody (handler r)) ∧
    (∀ m sid g, (execute_task m none sid g).1.success = false) ∧
    (∀ m t sid g, truthyStr t = true → task_running m = true →
      (execute_task m t sid g).1.success = false) ∧
    (statusOutcomeSuccess StatusOutcome.not_found = false ∧
     statusOutcomeSuccess StatusOutcome.agent_error = false) ∧
    (∀ g sid, (task_result none g sid).success = false ∧
      (task_result (some (Except.error ())) g sid).success = false) := by
  have hauth : r ≠ Route.healthcheck → r ≠ Route.health →
      requiresAuth r = true := by
    intro hr1 hr2
    cases r <;> first
      | rfl
      | exact absurd rfl hr1
      | exact absurd rfl hr2
  refine ⟨?_, ?_, ?_, ?_, ?_, ?_, ⟨rfl, rfl⟩, ?_⟩
  · intro hr1 hr2 hh
    subst hh
    simp [dispatch, hauth hr1 hr2, verify_api_key]
  · intro k hr1 hr2 hh hk
    subst hh
    simp [dispatch, hauth hr1 hr2, verify_api_key, bne_iff_ne, hk]
  · intro c hc
    by_cases hra : requiresAuth r = true
    · refine ⟨hra, ?_⟩
      rw [dispatch, if_pos hra] at hc
      cases hh : header with
      | none =>
          rw [hh] at hc
          simp only [verify_api_key] at hc
          exact Or.inl (HttpOut.httpError.inj hc).symm
      | some k =>
          rw [hh] at hc
          simp only [verify_api_key] at hc
          by_cases hkk : (k != apiKey) = true
          · rw [if_pos hkk] at hc
            exact Or.inr (HttpOut.httpError.inj hc).symm
          · rw [if_neg hkk] at hc
            exact absurd hc (by simp)
    · exfalso
      rw [dispatch, if_neg hra] at hc
      exact HttpOut.noConfusion hc
  · rintro (hh | hra)
    · subst hh
      by_cases hra : requiresAuth r = true
      · rw [dispatch, if_pos hra]
        simp [verify_api_key]
      · rw [dispatch, if_neg hra]
    · rw [dispatch]
      rw [if_neg (by rw [hra]; exact Bool.false_ne_true)]
  · intro m sid g
    rfl
  · intro m t sid g ht hrun
    simp [execute_task, ht, hrun]
  · intro g sid
    exact ⟨rfl, rfl⟩

/-- C8 witness: concrete requests — missing header 401, wrong key 403,
healthcheck without auth, correct key delivered as `200 OK` body. -/
theorem api_key_boundary_witness :
    dispatch "secret" Route.executeTask none (fun _ => 0) = HttpOut.httpError 401 ∧
    dispatch "secret" Route.taskStatus (some "wrong") (fun _ => 0)
      = HttpOut.httpError 403 ∧
    dispatch "secret" Route.healthcheck none (fun _ => 0) = HttpOut.okBody 0 ∧
    dispatch "secret" Route.taskResult (some "secret") (fun _ => 0)
      = HttpOut.okBody 0 := by
  refine ⟨?_, ?_, ?_, ?_⟩
  · exact (api_key_boundary "secret" Route.executeTask none (fun _ => 0)).1
      (by decide) (by decide) rfl
  · exact (api_key_boundary "secret" Route.taskStatus (some "wrong")
      (fun _ => 0)).2.1 "wrong" (by decide) (by decide) rfl (by decide)
  · exact (api_key_boundary "secret" Route.healthcheck none
      (fun _ => 0)).2.2.2.1 (Or.inr rfl)
  · exact (api_key_boundary "secret" Route.taskResult (some "secret")
      (fun _ => 0)).2.2.2.1 (Or.inl rfl)

end WebUi
